import Mathlib

/-!
Verification of the unisys resource-collection core against its
natural-language specification.

The Go source is embedded shallowly:
* `float64` metric values become `ℚ` (exact rational arithmetic in place of
  IEEE floats; all claims here are about exact formulas, bounds and data
  flow, not rounding).
* Go slices (the variable-length network-traffic list) are modelled with an
  explicit heap of cells, so that aliasing and mutation — the subject of the
  snapshot-immutability claims — can be stated: `append([]T{}, xs...)`
  allocates a fresh backing array and copies, which the model renders as
  allocation of a fresh cell holding a copy of the list.
* Fallible calls return `Option`.
* The collection loop (`CollectResource`) is embedded as a trace-producing
  function driven by an oracle of wait outcomes and sampler outcomes.
-/

/-- Entry of the per-interface traffic list
(`resource.NetworkTraffic` in `pkg/util/resource`): interface name plus
inbound/outbound bits-per-second. -/
structure NetworkTraffic where
  Interface : String
  InboundBps : ℚ
  OutboundBps : ℚ
deriving DecidableEq

/-- Value-level view of the `Resource` struct of
`internal/resourcecollecter/resource_collecter.go` (lines 34-39): three
utilization rates plus the traffic list, with the list taken by value. -/
structure Resource where
  CPUUsageRate : ℚ
  MemUsageRate : ℚ
  DiskUsageRate : ℚ
  NetworkTraffic : List NetworkTraffic
deriving DecidableEq

/-- Heap of slice backing arrays: cell `i` holds the list contents of the
slice with reference `i`.  A Go slice value is modelled by the index of its
cell; `append([]T{}, xs...)` is modelled by allocating a fresh cell. -/
structure Heap where
  cells : List (List NetworkTraffic)
deriving DecidableEq

/-- Dereference a slice: contents of cell `r` (out-of-range reads give the
empty list, which only models the nil slice). -/
def Heap.read (h : Heap) (r : Nat) : List NetworkTraffic :=
  h.cells.getD r []

/-- Mutate the backing array of slice `r` in place (overwriting elements or
re-using the backing store), leaving every other slice untouched. -/
def Heap.write (h : Heap) (r : Nat) (l : List NetworkTraffic) : Heap :=
  ⟨h.cells.set r l⟩

/-- Heap-level `Resource` as the Go code holds it: scalar fields by value,
the `NetworkTraffic` slice as a reference into the heap. -/
structure GoResource where
  CPUUsageRate : ℚ
  MemUsageRate : ℚ
  DiskUsageRate : ℚ
  NetworkTrafficRef : Nat
deriving DecidableEq

/-- `SetGlobalResource` (resource_collecter.go lines 51-60): under the write
lock, install a new global `Resource` whose scalar fields are copied from
the argument and whose traffic list is deep-copied via
`append([]resource.NetworkTraffic{}, r.NetworkTraffic...)` — modelled as
allocation of a fresh cell holding a copy of the caller's list.  Returns the
updated heap and the new global value. -/
def SetGlobalResource (h : Heap) (r : GoResource) : Heap × GoResource :=
  (⟨h.cells ++ [h.read r.NetworkTrafficRef]⟩,
   { CPUUsageRate := r.CPUUsageRate
     MemUsageRate := r.MemUsageRate
     DiskUsageRate := r.DiskUsageRate
     NetworkTrafficRef := h.cells.length })

/-- `GetGlobalResource` (resource_collecter.go lines 66-75): under the read
lock, return a copy of the global `Resource`, deep-copying the traffic list
into a fresh cell. -/
def GetGlobalResource (h : Heap) (g : GoResource) : Heap × GoResource :=
  (⟨h.cells ++ [h.read g.NetworkTrafficRef]⟩,
   { CPUUsageRate := g.CPUUsageRate
     MemUsageRate := g.MemUsageRate
     DiskUsageRate := g.DiskUsageRate
     NetworkTrafficRef := h.cells.length })

/-- Value-level meaning of a heap-level resource: dereference its slice. -/
def viewResource (h : Heap) (r : GoResource) : Resource :=
  { CPUUsageRate := r.CPUUsageRate
    MemUsageRate := r.MemUsageRate
    DiskUsageRate := r.DiskUsageRate
    NetworkTraffic := h.read r.NetworkTrafficRef }

theorem heapRead_concat_self (cs : List (List NetworkTraffic))
    (l : List NetworkTraffic) : Heap.read ⟨cs ++ [l]⟩ cs.length = l := by
  simp [Heap.read, List.getD_eq_getElem?_getD]

theorem heapRead_concat_lt (cs : List (List NetworkTraffic))
    (l : List NetworkTraffic) (n : Nat) (hn : n < cs.length) :
    Heap.read ⟨cs ++ [l]⟩ n = Heap.read ⟨cs⟩ n := by
  simp [Heap.read, List.getD_eq_getElem?_getD, List.getElem?_append_left hn]

theorem Heap.read_write_ne (h : Heap) (r n : Nat) (l : List NetworkTraffic)
    (hrn : r ≠ n) : (h.write r l).read n = h.read n := by
  simp [Heap.read, Heap.write, List.getD_eq_getElem?_getD,
    List.getElem?_set_ne hrn]

/-! ## The collection loop

`CollectResource` (resource_collecter.go lines 84-154) loops on
`goroutine.WaitTimeout == goroutine.WaitCancelWithTimeout(ctx, timeout)`
with `timeout` initially `0` and set to `3 * time.Second` at the top of each
iteration body.  Each iteration launches the four samplers, waits for all of
them, and publishes the merged result with `SetGlobalResource`.

`goroutine.WaitCancelWithTimeout` lives in `pkg/util/goroutine`, outside the
embedded sources; per the spec it is a cancellable wait with a tri-state
outcome (timed out / cancelled / error), and the loop continues only on the
timed-out outcome.  The embedding therefore takes the sequence of wait
outcomes, and the outcome of each cycle's samplers, as oracles and produces
the trace of waits and publications the loop performs. -/

/-- Modelled from the spec: tri-state outcome of
`goroutine.WaitCancelWithTimeout` (`pkg/util/goroutine` is not under the
embedded sources) — the wait either times out, observes cancellation, or
fails; the loop body runs only on `timedOut`. -/
inductive WaitRes where
  | timedOut
  | cancelled
  | failed
deriving DecidableEq

/-- Outcome of the four samplers of one collection cycle: `none` means the
sampler returned an error (in the Go code the goroutine then stores the
sampler's zero return value — `0.0` for the rates, `nil` for the traffic
list — and logs a warning). -/
structure SamplerOutcomes where
  cpu : Option ℚ
  mem : Option ℚ
  disk : Option ℚ
  net : Option (List NetworkTraffic)
deriving DecidableEq

/-- One collection cycle's published value (resource_collecter.go lines
89-142): `res` starts as the zero `Resource` of `var res Resource`, each
sampler goroutine overwrites its field with the sampler's return value
(which is the zero value when the sampler errors), and the merged struct is
handed to `SetGlobalResource` (a nil traffic list is copied to an empty
one). -/
def runCycle (o : SamplerOutcomes) : Resource :=
  { CPUUsageRate := o.cpu.getD 0
    MemUsageRate := o.mem.getD 0
    DiskUsageRate := o.disk.getD 0
    NetworkTraffic := o.net.getD [] }

/-- Observable step of the collection loop: a wait (with the timeout passed
to `WaitCancelWithTimeout`, in nanoseconds) or the publication of a cycle's
snapshot. -/
inductive Event where
  | wait (timeoutNs : Nat)
  | publish (r : Resource)
deriving DecidableEq

/-- `time.Second` in nanoseconds. -/
def secondNs : Nat := 1000000000

/-- Body of `CollectResource`'s `for` loop: evaluate the wait with the
current `timeout`; on `timedOut` run cycle `i` and continue with
`timeout = 3 * time.Second`; on any other outcome leave the loop.  The
finite `waits` list truncates the (in reality unbounded) run. -/
def collectLoop (samples : Nat → SamplerOutcomes) :
    Nat → List WaitRes → Nat → List Event
  | _, [], _ => []
  | t, WaitRes.timedOut :: rest, i =>
      Event.wait t :: Event.publish (runCycle (samples i)) ::
        collectLoop samples (3 * secondNs) rest (i + 1)
  | t, _ :: _, _ => [Event.wait t]

/-- `CollectResource` (resource_collecter.go lines 84-154): the loop starts
with `var timeout time.Duration = 0`. -/
def CollectResource (waits : List WaitRes) (samples : Nat → SamplerOutcomes) :
    List Event :=
  collectLoop samples 0 waits 0

/-- Timeouts of the wait events of a trace, in order. -/
def waitTimeouts (es : List Event) : List Nat :=
  es.filterMap fun e =>
    match e with
    | Event.wait t => some t
    | _ => none

/-- Snapshots published in a trace, in order. -/
def publishes (es : List Event) : List Resource :=
  es.filterMap fun e =>
    match e with
    | Event.publish r => some r
    | _ => none

/-- Number of waits the loop performs on a given outcome sequence: one per
leading `timedOut`, plus the final wait that returns a non-timeout outcome
(if the sequence provides one). -/
def numWaits : List WaitRes → Nat
  | [] => 0
  | WaitRes.timedOut :: rest => 1 + numWaits rest
  | _ :: _ => 1

theorem numWaits_pos (w : WaitRes) (rest : List WaitRes) :
    1 ≤ numWaits (w :: rest) := by
  cases w <;> simp [numWaits]

theorem waitTimeouts_collectLoop (samples : Nat → SamplerOutcomes)
    (waits : List WaitRes) (t i : Nat) :
    waitTimeouts (collectLoop samples t waits i) =
      if waits = [] then []
      else t :: List.replicate (numWaits waits - 1) (3 * secondNs) := by
  induction waits generalizing t i with
  | nil => simp [collectLoop, waitTimeouts]
  | cons w rest ih =>
    cases w with
    | timedOut =>
      have hstep : collectLoop samples t (WaitRes.timedOut :: rest) i
          = Event.wait t :: Event.publish (runCycle (samples i)) ::
              collectLoop samples (3 * secondNs) rest (i + 1) := rfl
      rw [hstep]
      have hw : waitTimeouts (Event.wait t ::
            Event.publish (runCycle (samples i)) ::
            collectLoop samples (3 * secondNs) rest (i + 1))
          = t :: waitTimeouts (collectLoop samples (3 * secondNs) rest
              (i + 1)) := by
        simp [waitTimeouts]
      rw [hw, ih]
      cases rest with
      | nil => simp [numWaits]
      | cons w' rest' =>
        have h1 : 1 ≤ numWaits (w' :: rest') := numWaits_pos w' rest'
        simp only [numWaits, reduceCtorEq, ite_false, List.cons.injEq,
          true_and]
        rw [show 1 + numWaits (w' :: rest') - 1 = numWaits (w' :: rest')
              from by omega]
        rw [show numWaits (w' :: rest')
              = (numWaits (w' :: rest') - 1) + 1 from by omega,
            List.replicate_succ]
        congr 2
    | cancelled => simp [collectLoop, waitTimeouts, numWaits]
    | failed => simp [collectLoop, waitTimeouts, numWaits]

theorem collectLoop_cancelled (samples : Nat → SamplerOutcomes)
    (ws₁ ws₂ : List WaitRes) (t i : Nat)
    (h : ∀ w ∈ ws₁, w = WaitRes.timedOut) :
    collectLoop samples t (ws₁ ++ WaitRes.cancelled :: ws₂) i
      = collectLoop samples t ws₁ i ++
          [Event.wait (if ws₁ = [] then t else 3 * secondNs)] := by
  induction ws₁ generalizing t i with
  | nil => simp [collectLoop]
  | cons w ws ih =>
    have hwt : w = WaitRes.timedOut := h w (List.mem_cons_self w ws)
    subst hwt
    have hrest : ∀ w ∈ ws, w = WaitRes.timedOut := fun w hw =>
      h w (List.mem_cons_of_mem _ hw)
    have hstep : collectLoop samples t
          ((WaitRes.timedOut :: ws) ++ WaitRes.cancelled :: ws₂) i
        = Event.wait t :: Event.publish (runCycle (samples i)) ::
            collectLoop samples (3 * secondNs) (ws ++ WaitRes.cancelled :: ws₂)
              (i + 1) := rfl
    rw [hstep, ih (3 * secondNs) (i + 1) hrest]
    simp [collectLoop]

/-! ## Sampler arithmetic

The rate calculators live in `pkg/util/resource`, which is not among the
embedded sources; they are modelled from the spec (section 4.3). -/

/-- Modelled from the spec: the CPU counter snapshot returned by
`resource.GetCPUStat` — aggregate busy time and total time
(`pkg/util/resource` is not under the embedded sources). -/
structure CPUStat where
  busy : ℚ
  total : ℚ
deriving DecidableEq

/-- Modelled from the spec: `resource.CalculateCPURate` — utilization is
`(busyB − busyA) / (totalB − totalA) × 100`, clamped to `[0, 100]`
(`pkg/util/resource` is not under the embedded sources). -/
def CalculateCPURate (prev curr : CPUStat) : ℚ :=
  min 100 (max 0 ((curr.busy - prev.busy) / (curr.total - prev.total) * 100))

/-- `getCPUUsageRate` (resource_collecter.go lines 161-179): read a counter
snapshot, sleep one second, read a second snapshot, and return
`CalculateCPURate prev curr`; either failing read aborts with the error
(and the caller then stores the zero value `0.0`).  The two reads are the
function's oracles. -/
def getCPUUsageRate (readA readB : Option CPUStat) : Option ℚ :=
  match readA with
  | none => none
  | some prevStat =>
    match readB with
    | none => none
    | some currStat => some (CalculateCPURate prevStat currStat)

/-- Modelled from the spec: the memory counters read by
`resource.GetMemStat` (`pkg/util/resource` is not under the embedded
sources). -/
structure MemStat where
  total : ℚ
  available : ℚ
deriving DecidableEq

/-- Modelled from the spec: `resource.CalculateMemRate` — utilization is
`(total − available) / total × 100` (`pkg/util/resource` is not under the
embedded sources). -/
def CalculateMemRate (m : MemStat) : ℚ :=
  (m.total - m.available) / m.total * 100

/-- Modelled from the spec: the disk counters read by
`resource.GetDiskStat "/"` (`pkg/util/resource` is not under the embedded
sources). -/
structure DiskStat where
  total : ℚ
  free : ℚ
deriving DecidableEq

/-- Modelled from the spec: `resource.CalculateDiskRate` — utilization is
`(total − free) / total × 100` (`pkg/util/resource` is not under the
embedded sources). -/
def CalculateDiskRate (d : DiskStat) : ℚ :=
  (d.total - d.free) / d.total * 100

/-- Modelled from the spec: per-interface byte counters as returned by
`resource.GetAllNetworkTraffic` (`pkg/util/resource` is not under the
embedded sources). -/
structure NetCounters where
  bytesRecv : ℚ
  bytesSent : ℚ
deriving DecidableEq

/-- Counters of the named interface in a reading, if present. -/
def lookupCounters (reading : List (String × NetCounters)) (name : String) :
    Option NetCounters :=
  (reading.find? fun p => p.1 == name).map Prod.snd

/-- Modelled from the spec: `resource.CalculateNetworkTraffic` — for each
interface present in both readings, inbound and outbound
`bitsPerSec = (bytesB − bytesA) × 8 / elapsedSeconds`; interfaces that
disappear between the readings are dropped (`pkg/util/resource` is not
under the embedded sources). -/
def CalculateNetworkTraffic (prev curr : List (String × NetCounters))
    (intervalSec : ℚ) : List NetworkTraffic :=
  curr.filterMap fun p =>
    match lookupCounters prev p.1 with
    | none => none
    | some pc =>
      some { Interface := p.1
             InboundBps := (p.2.bytesRecv - pc.bytesRecv) * 8 / intervalSec
             OutboundBps := (p.2.bytesSent - pc.bytesSent) * 8 / intervalSec }

/-- Number of failed samplers in one cycle's outcome. -/
def failCount (o : SamplerOutcomes) : Nat :=
  (if o.cpu = none then 1 else 0) + (if o.mem = none then 1 else 0) +
    (if o.disk = none then 1 else 0) + (if o.net = none then 1 else 0)

/-- Sampler oracle used for the concrete loop runs: cycle 0 has all four
samplers succeed (CPU 50, memory 20, disk 30, empty traffic list); from
cycle 1 on the CPU sampler fails and the other three return the same
values. -/
def demoSamples : Nat → SamplerOutcomes := fun i =>
  if i = 0 then
    { cpu := some 50, mem := some 20, disk := some 30, net := some [] }
  else
    { cpu := none, mem := some 20, disk := some 30, net := some [] }

/-! ## Configuration loading

`config.LoadConfig` (config/config.go lines 248-283) opens and YAML-decodes
the configuration file (any failure is returned as an error), then clamps
the numeric fields to their documented ranges, replacing any out-of-range
value by its default.  The embedding keeps the five validated numeric
fields (Go `int`, so `Int` here); the string/boolean fields are decoded but
never validated and play no part in the claims. -/

/-- Validated numeric fields of the `server:` section of `config.Config`. -/
structure ServerConf where
  port : Int
  shutdownTimeout : Int
deriving DecidableEq

/-- Validated numeric fields of the `log:` section of `config.Config`. -/
structure LogConf where
  maxLogFileSize : Int
  maxLogFileBackup : Int
  maxLogFileAge : Int
deriving DecidableEq

/-- Validated numeric fields of `config.Config`. -/
structure Config where
  server : ServerConf
  log : LogConf
deriving DecidableEq

/-- Validation step of `LoadConfig` (config/config.go lines 265-280): each
field is replaced by its default exactly when it lies outside its accepted
range — `[0, 65535]` for `Port`, `[0, 20]` for `ShutdownTimeout`,
`[1, 1000]`, `[1, 100]` and `[1, 365]` for the log fields. -/
def validateConf (c : Config) : Config :=
  { server :=
      { port :=
          if c.server.port < 0 ∨ 65535 < c.server.port then 8443
          else c.server.port
        shutdownTimeout :=
          if c.server.shutdownTimeout < 0 ∨ 20 < c.server.shutdownTimeout
          then 5 else c.server.shutdownTimeout }
    log :=
      { maxLogFileSize :=
          if c.log.maxLogFileSize < 1 ∨ 1000 < c.log.maxLogFileSize then 100
          else c.log.maxLogFileSize
        maxLogFileBackup :=
          if c.log.maxLogFileBackup < 1 ∨ 100 < c.log.maxLogFileBackup
          then 10 else c.log.maxLogFileBackup
        maxLogFileAge :=
          if c.log.maxLogFileAge < 1 ∨ 365 < c.log.maxLogFileAge then 90
          else c.log.maxLogFileAge } }

/-- `config.LoadConfig` (config/config.go lines 248-283) over the decode
oracle: `none` stands for a file-open or YAML-decode failure (the function
then returns the error without validating); on a successful decode the
validated configuration is installed in `Conf` and `nil` is returned. -/
def LoadConfig (decoded : Option Config) : Option Config :=
  decoded.map validateConf

/-! ## Process bookkeeping (`cmd` package)

`IsRunning` is in the embedded sources; `strconv.Atoi` (Go standard
library), `process.IsProcessRun`, `process.SendSignal` and
`file.ChangeWorkPathToModulePath` (`pkg/util`, not under the embedded
sources) are oracles of the model. -/

/-- Numeric value of a decimal digit, if the character is one. -/
def digitVal (ch : Char) : Option Nat :=
  if '0' ≤ ch ∧ ch ≤ '9' then some (ch.toNat - Char.toNat '0') else none

/-- Accumulate decimal digits left to right; any non-digit fails. -/
def parseNatCore : List Char → Nat → Option Nat
  | [], acc => some acc
  | ch :: rest, acc =>
    match digitVal ch with
    | none => none
    | some d => parseNatCore rest (acc * 10 + d)

/-- Model of Go `strconv.Atoi`: an optional sign followed by at least one
decimal digit; anything else (empty input, stray characters, a bare sign)
is an error.  Go's range check cannot bite here since `Int` is unbounded,
and on any error Go returns the value `0` alongside the error. -/
def atoi (s : String) : Option Int :=
  match s.data with
  | [] => none
  | '+' :: rest =>
    if rest = [] then none else (parseNatCore rest 0).map Int.ofNat
  | '-' :: rest =>
    if rest = [] then none
    else (parseNatCore rest 0).map fun n => -(Int.ofNat n)
  | l => (parseNatCore l 0).map Int.ofNat

/-- Environment of `IsRunning`: whether the PID file opens, what a full
read of it yields (`none` = read error), and which PIDs
`process.IsProcessRun` reports as running. -/
structure ProcEnv where
  canOpen : Bool
  readData : Option String
  isRun : Int → Bool

/-- `IsRunning` (cmd sources, lines 89-114): a nil `pid` pointer, a failed
open, a failed read or an unparsable PID each yield `false`; otherwise
`*pid` is set to the parsed value (on a parse error Go's `Atoi` has already
stored `0` into `*pid`) and `process.IsProcessRun(*pid)` decides the
result.  Returns the result together with the final contents of `*pid`. -/
def IsRunning (pid : Option Int) (env : ProcEnv) : Bool × Option Int :=
  match pid with
  | none => (false, none)
  | some old =>
    if env.canOpen = false then (false, some old)
    else
      match env.readData with
      | none => (false, some old)
      | some s =>
        match atoi s with
        | none => (false, some 0)
        | some n => (env.isRun n, some n)

/-- The one signal `stop` ever sends. -/
inductive Sig where
  | SIGTERM
deriving DecidableEq

/-- Environment of `stop`: whether `file.ChangeWorkPathToModulePath`
succeeds, the `IsRunning` environment, and whether `process.SendSignal`
succeeds. -/
structure StopEnv where
  chdirOk : Bool
  proc : ProcEnv
  sendOk : Bool

/-- `stop` (cmd/operation.go lines 124-145): change to the module path
(failure returns the error at once); if `IsRunning(&pid, PidFilePath)` is
false, return `nil` having sent nothing; otherwise send a single SIGTERM to
the PID read from the PID file and return `nil` unless the send fails.
The result is the pair (returned nil?, list of signals sent, in order);
`var pid int` starts the pointer's cell at `0`. -/
def stop (env : StopEnv) : Bool × List (Int × Sig) :=
  if env.chdirOk = false then (false, [])
  else
    let r := IsRunning (some 0) env.proc
    if r.1 = false then (true, [])
    else
      let p := r.2.getD 0
      if env.sendOk then (true, [(p, Sig.SIGTERM)])
      else (false, [(p, Sig.SIGTERM)])

/-! ## Claim theorems -/

/-- C2: publishing a resource with `SetGlobalResource` and then reading with
`GetGlobalResource`, with no intervening publish, yields a resource equal to
the published one in all four fields, the traffic list element-wise. -/
theorem heapRead_concat_two (cs : List (List NetworkTraffic))
    (x y : List NetworkTraffic) :
    Heap.read ⟨cs ++ [x, y]⟩ (cs.length + 1) = y := by
  simp only [Heap.read, List.getD_eq_getElem?_getD]
  rw [List.getElem?_append_right (by omega)]
  simp

theorem heapRead_concat_two_fst (cs : List (List NetworkTraffic))
    (x y : List NetworkTraffic) :
    Heap.read ⟨cs ++ [x, y]⟩ cs.length = x := by
  simp only [Heap.read, List.getD_eq_getElem?_getD]
  rw [List.getElem?_append_right (by omega)]
  simp

theorem publish_read_roundtrip (h : Heap) (r : GoResource) :
    viewResource
        (GetGlobalResource (SetGlobalResource h r).1
          (SetGlobalResource h r).2).1
        (GetGlobalResource (SetGlobalResource h r).1
          (SetGlobalResource h r).2).2
      = viewResource h r := by
  simp [SetGlobalResource, GetGlobalResource, viewResource,
    heapRead_concat_self, heapRead_concat_two]

/-- C3: after `SetGlobalResource` publishes a snapshot, overwriting the
caller's original traffic slice does not change what a subsequent
`GetGlobalResource` returns, and overwriting the slice of the resource a
`GetGlobalResource` returned does not change the stored snapshot. -/
theorem snapshot_isolation (h : Heap) (r : GoResource)
    (l₁ l₂ : List NetworkTraffic)
    (hv : r.NetworkTrafficRef < h.cells.length) :
    (viewResource
        (GetGlobalResource
          ((SetGlobalResource h r).1.write r.NetworkTrafficRef l₁)
          (SetGlobalResource h r).2).1
        (GetGlobalResource
          ((SetGlobalResource h r).1.write r.NetworkTrafficRef l₁)
          (SetGlobalResource h r).2).2
      = viewResource (SetGlobalResource h r).1 (SetGlobalResource h r).2) ∧
    (viewResource
        ((GetGlobalResource (SetGlobalResource h r).1
            (SetGlobalResource h r).2).1.write
          (GetGlobalResource (SetGlobalResource h r).1
            (SetGlobalResource h r).2).2.NetworkTrafficRef l₂)
        (SetGlobalResource h r).2
      = viewResource (SetGlobalResource h r).1 (SetGlobalResource h r).2) := by
  have hne : r.NetworkTrafficRef ≠ h.cells.length := Nat.ne_of_lt hv
  constructor
  · simp [SetGlobalResource, GetGlobalResource, viewResource, Heap.write,
      Resource.mk.injEq]
    have hlen : ((h.cells ++ [h.read r.NetworkTrafficRef]).set
        r.NetworkTrafficRef l₁).length = h.cells.length + 1 := by simp
    rw [← hlen, heapRead_concat_self]
    exact Heap.read_write_ne ⟨h.cells ++ [h.read r.NetworkTrafficRef]⟩ _ _
      l₁ hne
  · simp [SetGlobalResource, GetGlobalResource, viewResource, Heap.write,
      Resource.mk.injEq]
    rw [heapRead_concat_two_fst, heapRead_concat_self]

/-- Concrete scenario for the C3 witness: a one-cell heap whose cell 0 is
the caller's traffic slice. -/
def wHeap : Heap := ⟨[[NetworkTraffic.mk "eth0" 1 2]]⟩

/-- Concrete caller resource for the C3 witness, its slice pointing at cell
0 of `wHeap`. -/
def wRes : GoResource := ⟨50, 20, 30, 0⟩

theorem snapshot_isolation_witness :
    wRes.NetworkTrafficRef < wHeap.cells.length ∧
    viewResource
        (GetGlobalResource
          ((SetGlobalResource wHeap wRes).1.write wRes.NetworkTrafficRef [])
          (SetGlobalResource wHeap wRes).2).1
        (GetGlobalResource
          ((SetGlobalResource wHeap wRes).1.write wRes.NetworkTrafficRef [])
          (SetGlobalResource wHeap wRes).2).2
      = viewResource (SetGlobalResource wHeap wRes).1
          (SetGlobalResource wHeap wRes).2 :=
  ⟨by decide, (snapshot_isolation wHeap wRes [] [] (by decide)).1⟩

/-- C4: the first wait of the collection loop is issued with a zero
timeout, and every subsequent wait with exactly three seconds. -/
theorem first_wait_zero_then_three_seconds :
    (∀ s : Nat → SamplerOutcomes, CollectResource [] s = []) ∧
    ∀ (w : WaitRes) (rest : List WaitRes) (s : Nat → SamplerOutcomes),
      waitTimeouts (CollectResource (w :: rest) s)
        = 0 :: List.replicate (numWaits (w :: rest) - 1) (3 * secondNs) := by
  refine ⟨fun s => rfl, fun w rest s => ?_⟩
  rw [CollectResource, waitTimeouts_collectLoop]
  simp

/-- C7: when the wait returns `cancelled` after a run of timed-out waits,
the loop's trace is exactly the completed cycles followed by that final
wait — no sampler runs and nothing is published after the cancelled wait,
and later wait outcomes are never consulted. -/
theorem cancelled_wait_stops_loop (ws₁ ws₂ : List WaitRes)
    (s : Nat → SamplerOutcomes) (h : ∀ w ∈ ws₁, w = WaitRes.timedOut) :
    CollectResource (ws₁ ++ WaitRes.cancelled :: ws₂) s
      = CollectResource ws₁ s ++
          [Event.wait (if ws₁ = [] then 0 else 3 * secondNs)] :=
  collectLoop_cancelled s ws₁ ws₂ 0 0 h

theorem cancelled_wait_stops_loop_witness :
    CollectResource [WaitRes.timedOut, WaitRes.cancelled] demoSamples
      = CollectResource [WaitRes.timedOut] demoSamples ++
          [Event.wait (if ([WaitRes.timedOut] : List WaitRes) = []
            then 0 else 3 * secondNs)] :=
  cancelled_wait_stops_loop [WaitRes.timedOut] [] demoSamples (by decide)

/-- C1 counterexample: run two cycles; in cycle 0 all four samplers succeed
(CPU 50), in cycle 1 exactly the CPU sampler fails.  The snapshot published
by cycle 1 carries CPU usage 0 — the zero default — and not the value 50 of
the previously published snapshot, contradicting the claim. -/
theorem failedSampler_prev_value_counterexample :
    failCount (demoSamples 1) = 1 ∧
    publishes (CollectResource
        [WaitRes.timedOut, WaitRes.timedOut, WaitRes.cancelled] demoSamples)
      = [⟨50, 20, 30, []⟩, ⟨0, 20, 30, []⟩] ∧
    ¬ ((publishes (CollectResource
          [WaitRes.timedOut, WaitRes.timedOut, WaitRes.cancelled]
          demoSamples)).getD 1 ⟨0, 0, 0, []⟩).CPUUsageRate
        = ((publishes (CollectResource
          [WaitRes.timedOut, WaitRes.timedOut, WaitRes.cancelled]
          demoSamples)).getD 0 ⟨0, 0, 0, []⟩).CPUUsageRate := by
  refine ⟨by decide, by decide, by decide⟩

/-- C1 amended: if exactly one of the four samplers fails during a cycle,
the published snapshot carries the sampled values of the other three, and
the failed sampler's field carries the zero default (`0` for the rates, the
empty list for the traffic list) — regardless of any previously published
snapshot. -/
theorem failedSampler_zero_default (o : SamplerOutcomes)
    (_h : failCount o = 1) :
    ((o.cpu = none → (runCycle o).CPUUsageRate = 0) ∧
      ∀ x, o.cpu = some x → (runCycle o).CPUUsageRate = x) ∧
    ((o.mem = none → (runCycle o).MemUsageRate = 0) ∧
      ∀ x, o.mem = some x → (runCycle o).MemUsageRate = x) ∧
    ((o.disk = none → (runCycle o).DiskUsageRate = 0) ∧
      ∀ x, o.disk = some x → (runCycle o).DiskUsageRate = x) ∧
    ((o.net = none → (runCycle o).NetworkTraffic = []) ∧
      ∀ l, o.net = some l → (runCycle o).NetworkTraffic = l) := by
  refine ⟨⟨?_, ?_⟩, ⟨?_, ?_⟩, ⟨?_, ?_⟩, ⟨?_, ?_⟩⟩
  · intro hx; simp [runCycle, hx]
  · intro x hx; simp [runCycle, hx]
  · intro hx; simp [runCycle, hx]
  · intro x hx; simp [runCycle, hx]
  · intro hx; simp [runCycle, hx]
  · intro x hx; simp [runCycle, hx]
  · intro hx; simp [runCycle, hx]
  · intro l hx; simp [runCycle, hx]

theorem failedSampler_zero_default_witness :
    failCount ⟨none, some 20, some 30, some []⟩ = 1 ∧
    (runCycle ⟨none, some 20, some 30, some []⟩).CPUUsageRate = 0 ∧
    (runCycle ⟨none, some 20, some 30, some []⟩).MemUsageRate = 20 :=
  ⟨by decide,
   (failedSampler_zero_default ⟨none, some 20, some 30, some []⟩
     (by decide)).1.1 rfl,
   (failedSampler_zero_default ⟨none, some 20, some 30, some []⟩
     (by decide)).2.1.2 20 rfl⟩

/-- C5: when both counter reads succeed, `getCPUUsageRate` returns exactly
`(busyB − busyA) / (totalB − totalA) × 100` clamped to `[0, 100]`; at
counters A = (busy 100, total 200) and B = (busy 150, total 300) the result
is 50. -/
theorem cpu_rate_formula :
    (∀ a b : CPUStat, getCPUUsageRate (some a) (some b)
        = some (min 100
            (max 0 ((b.busy - a.busy) / (b.total - a.total) * 100)))) ∧
    getCPUUsageRate (some ⟨100, 200⟩) (some ⟨150, 300⟩) = some 50 :=
  ⟨fun a b => rfl,
   by norm_num [getCPUUsageRate, CalculateCPURate, min_def, max_def]⟩

/-- C6: the CPU rate is within `[0, 100]` for all counter inputs; the
memory and disk rates are within `[0, 100]` for every well-formed counter
reading (non-negative available/free space not exceeding the total); and
every per-interface bits-per-second value is non-negative whenever the byte
counters are monotone between the two readings. -/
theorem sampler_rate_bounds :
    (∀ a b : CPUStat,
      0 ≤ CalculateCPURate a b ∧ CalculateCPURate a b ≤ 100) ∧
    (∀ m : MemStat, 0 ≤ m.available → m.available ≤ m.total →
      0 ≤ CalculateMemRate m ∧ CalculateMemRate m ≤ 100) ∧
    (∀ d : DiskStat, 0 ≤ d.free → d.free ≤ d.total →
      0 ≤ CalculateDiskRate d ∧ CalculateDiskRate d ≤ 100) ∧
    (∀ (prev curr : List (String × NetCounters)) (intervalSec : ℚ),
      0 < intervalSec →
      (∀ p ∈ curr, ∀ pc, lookupCounters prev p.1 = some pc →
        pc.bytesRecv ≤ p.2.bytesRecv ∧ pc.bytesSent ≤ p.2.bytesSent) →
      ∀ t ∈ CalculateNetworkTraffic prev curr intervalSec,
        0 ≤ t.InboundBps ∧ 0 ≤ t.OutboundBps) := by
  refine ⟨?_, ?_, ?_, ?_⟩
  · intro a b
    constructor
    · exact le_min (by norm_num) (le_max_left 0 _)
    · exact min_le_left 100 _
  · intro m h0 hle
    rcases eq_or_lt_of_le (h0.trans hle) with htot | htot
    · simp [CalculateMemRate, ← htot]
    · constructor
      · exact mul_nonneg (div_nonneg (sub_nonneg.2 hle) htot.le)
          (by norm_num)
      · have h1 : (m.total - m.available) / m.total ≤ 1 := by
          rw [div_le_one htot]; linarith
        calc (m.total - m.available) / m.total * 100
            ≤ 1 * 100 := mul_le_mul_of_nonneg_right h1 (by norm_num)
          _ = 100 := by norm_num
  · intro d h0 hle
    rcases eq_or_lt_of_le (h0.trans hle) with htot | htot
    · simp [CalculateDiskRate, ← htot]
    · constructor
      · exact mul_nonneg (div_nonneg (sub_nonneg.2 hle) htot.le)
          (by norm_num)
      · have h1 : (d.total - d.free) / d.total ≤ 1 := by
          rw [div_le_one htot]; linarith
        calc (d.total - d.free) / d.total * 100
            ≤ 1 * 100 := mul_le_mul_of_nonneg_right h1 (by norm_num)
          _ = 100 := by norm_num
  · intro prev curr intervalSec hI hmono t ht
    simp only [CalculateNetworkTraffic, List.mem_filterMap] at ht
    obtain ⟨p, hp, hfp⟩ := ht
    cases hlk : lookupCounters prev p.1 with
    | none => rw [hlk] at hfp; simp at hfp
    | some pc =>
      rw [hlk] at hfp
      simp only [Option.some.injEq] at hfp
      obtain ⟨hrecv, hsent⟩ := hmono p hp pc hlk
      subst hfp
      constructor
      · exact div_nonneg
          (mul_nonneg (sub_nonneg.2 hrecv) (by norm_num)) hI.le
      · exact div_nonneg
          (mul_nonneg (sub_nonneg.2 hsent) (by norm_num)) hI.le

theorem sampler_rate_bounds_witness :
    (0 ≤ CalculateCPURate ⟨100, 200⟩ ⟨150, 300⟩ ∧
      CalculateCPURate ⟨100, 200⟩ ⟨150, 300⟩ ≤ 100) ∧
    (0 ≤ CalculateMemRate ⟨8, 2⟩ ∧ CalculateMemRate ⟨8, 2⟩ ≤ 100) ∧
    (0 ≤ CalculateDiskRate ⟨10, 4⟩ ∧ CalculateDiskRate ⟨10, 4⟩ ≤ 100) ∧
    (0 ≤ (NetworkTraffic.mk "eth0" 8000 8000).InboundBps ∧
      0 ≤ (NetworkTraffic.mk "eth0" 8000 8000).OutboundBps) :=
  ⟨sampler_rate_bounds.1 ⟨100, 200⟩ ⟨150, 300⟩,
   sampler_rate_bounds.2.1 ⟨8, 2⟩ (by norm_num) (by norm_num),
   sampler_rate_bounds.2.2.1 ⟨10, 4⟩ (by norm_num) (by norm_num),
   sampler_rate_bounds.2.2.2 [("eth0", ⟨1000, 500⟩)]
     [("eth0", ⟨2000, 1500⟩)] 1 (by norm_num)
     (by
       intro p hp pc hpc
       simp only [List.mem_singleton] at hp
       subst hp
       simp only [lookupCounters, List.find?] at hpc
       norm_num at hpc
       rw [← hpc]
       norm_num)
     ⟨"eth0", 8000, 8000⟩
     (by
       show _ ∈ CalculateNetworkTraffic _ _ _
       simp [CalculateNetworkTraffic, lookupCounters, List.find?]
       norm_num)⟩

/-- C8: after a successful `LoadConfig` every validated field lies in its
accepted range — `[0, 65535]` for the port, `[0, 20]` for the shutdown
timeout, `[1, 1000]`, `[1, 100]` and `[1, 365]` for the log limits — an
out-of-range decoded value having been replaced by its default (8443, 5,
100, 10, 90) and an in-range one (including 0 for port and shutdown
timeout) kept unchanged. -/
theorem loadConfig_range_validation (d c : Config)
    (h : LoadConfig (some d) = some c) :
    ((0 ≤ c.server.port ∧ c.server.port ≤ 65535) ∧
     (0 ≤ c.server.shutdownTimeout ∧ c.server.shutdownTimeout ≤ 20) ∧
     (1 ≤ c.log.maxLogFileSize ∧ c.log.maxLogFileSize ≤ 1000) ∧
     (1 ≤ c.log.maxLogFileBackup ∧ c.log.maxLogFileBackup ≤ 100) ∧
     (1 ≤ c.log.maxLogFileAge ∧ c.log.maxLogFileAge ≤ 365)) ∧
    ((d.server.port < 0 ∨ 65535 < d.server.port →
        c.server.port = 8443) ∧
     (0 ≤ d.server.port → d.server.port ≤ 65535 →
        c.server.port = d.server.port)) ∧
    ((d.server.shutdownTimeout < 0 ∨ 20 < d.server.shutdownTimeout →
        c.server.shutdownTimeout = 5) ∧
     (0 ≤ d.server.shutdownTimeout → d.server.shutdownTimeout ≤ 20 →
        c.server.shutdownTimeout = d.server.shutdownTimeout)) ∧
    ((d.log.maxLogFileSize < 1 ∨ 1000 < d.log.maxLogFileSize →
        c.log.maxLogFileSize = 100) ∧
     (1 ≤ d.log.maxLogFileSize → d.log.maxLogFileSize ≤ 1000 →
        c.log.maxLogFileSize = d.log.maxLogFileSize)) ∧
    ((d.log.maxLogFileBackup < 1 ∨ 100 < d.log.maxLogFileBackup →
        c.log.maxLogFileBackup = 10) ∧
     (1 ≤ d.log.maxLogFileBackup → d.log.maxLogFileBackup ≤ 100 →
        c.log.maxLogFileBackup = d.log.maxLogFileBackup)) ∧
    ((d.log.maxLogFileAge < 1 ∨ 365 < d.log.maxLogFileAge →
        c.log.maxLogFileAge = 90) ∧
     (1 ≤ d.log.maxLogFileAge → d.log.maxLogFileAge ≤ 365 →
        c.log.maxLogFileAge = d.log.maxLogFileAge)) := by
  have hc : c = validateConf d := by
    simpa [LoadConfig] using h.symm
  subst hc
  simp only [validateConf]
  refine ⟨⟨?_, ?_, ?_, ?_, ?_⟩, ⟨?_, ?_⟩, ⟨?_, ?_⟩, ⟨?_, ?_⟩, ⟨?_, ?_⟩,
    ⟨?_, ?_⟩⟩ <;>
    first
      | (constructor <;> (split <;> omega))
      | (intro hx; split <;> omega)

theorem loadConfig_range_validation_witness :
    (validateConf ⟨⟨0, 0⟩, ⟨2000, 0, 400⟩⟩).server.port = 0 ∧
    (validateConf ⟨⟨0, 0⟩, ⟨2000, 0, 400⟩⟩).server.shutdownTimeout = 0 ∧
    (validateConf ⟨⟨0, 0⟩, ⟨2000, 0, 400⟩⟩).log.maxLogFileSize = 100 ∧
    (validateConf ⟨⟨0, 0⟩, ⟨2000, 0, 400⟩⟩).log.maxLogFileBackup = 10 ∧
    (validateConf ⟨⟨0, 0⟩, ⟨2000, 0, 400⟩⟩).log.maxLogFileAge = 90 :=
  ⟨(loadConfig_range_validation ⟨⟨0, 0⟩, ⟨2000, 0, 400⟩⟩ _ rfl).2.1.2
      (by decide) (by decide),
   (loadConfig_range_validation ⟨⟨0, 0⟩, ⟨2000, 0, 400⟩⟩ _ rfl).2.2.1.2
      (by decide) (by decide),
   (loadConfig_range_validation ⟨⟨0, 0⟩, ⟨2000, 0, 400⟩⟩ _ rfl).2.2.2.1.1
      (Or.inr (by decide)),
   (loadConfig_range_validation ⟨⟨0, 0⟩, ⟨2000, 0, 400⟩⟩ _ rfl).2.2.2.2.1.1
      (Or.inl (by decide)),
   (loadConfig_range_validation ⟨⟨0, 0⟩, ⟨2000, 0, 400⟩⟩ _ rfl).2.2.2.2.2.1
      (Or.inr (by decide))⟩

/-- C9: `IsRunning` returns `false` whenever the pid pointer is nil, the
PID file cannot be opened, its contents cannot be read, or its contents do
not parse as an integer; and whenever it returns `true`, the file's
contents parsed to an integer that `process.IsProcessRun` reports as a
running process, and `*pid` holds exactly that integer. -/
theorem isRunning_characterization (pid : Option Int) (env : ProcEnv) :
    (pid = none → IsRunning pid env = (false, none)) ∧
    (env.canOpen = false → ∀ p, pid = some p →
      IsRunning pid env = (false, some p)) ∧
    (env.canOpen = true → env.readData = none → ∀ p, pid = some p →
      IsRunning pid env = (false, some p)) ∧
    (∀ s, env.readData = some s → atoi s = none → ∀ p, pid = some p →
      (IsRunning pid env).1 = false) ∧
    ((IsRunning pid env).1 = true →
      ∃ s n, env.readData = some s ∧ atoi s = some n ∧
        env.isRun n = true ∧ (IsRunning pid env).2 = some n) := by
  refine ⟨?_, ?_, ?_, ?_, ?_⟩
  · intro hp; subst hp; rfl
  · intro hco p hp; subst hp; simp [IsRunning, hco]
  · intro hco hrd p hp; subst hp; simp [IsRunning, hco, hrd]
  · intro s hs ha p hp; subst hp
    cases hco : env.canOpen with
    | false => simp [IsRunning, hco]
    | true => simp [IsRunning, hco, hs, ha]
  · intro htrue
    cases pid with
    | none => simp [IsRunning] at htrue
    | some old =>
      cases hco : env.canOpen with
      | false => simp [IsRunning, hco] at htrue
      | true =>
        cases hrd : env.readData with
        | none => simp [IsRunning, hco, hrd] at htrue
        | some s =>
          cases ha : atoi s with
          | none => simp [IsRunning, hco, hrd, ha] at htrue
          | some n =>
            refine ⟨s, n, rfl, ha, ?_, ?_⟩
            · simpa [IsRunning, hco, hrd, ha] using htrue
            · simp [IsRunning, hco, hrd, ha]

theorem isRunning_characterization_witness :
    IsRunning none ⟨true, some "123", fun n => decide (n = 123)⟩
      = (false, none) :=
  (isRunning_characterization none
    ⟨true, some "123", fun n => decide (n = 123)⟩).1 rfl

/-- C10: provided the working-directory change succeeds, `stop` returns
`nil` and sends nothing when `IsRunning` reports no daemon; when a daemon
is running it sends exactly one SIGTERM to the PID `IsRunning` read from
the PID file, and returns `nil` exactly when that send succeeds. -/
theorem stop_signal_behavior (env : StopEnv) (hch : env.chdirOk = true) :
    ((IsRunning (some 0) env.proc).1 = false → stop env = (true, [])) ∧
    ((IsRunning (some 0) env.proc).1 = true →
      (stop env).2 = [((IsRunning (some 0) env.proc).2.getD 0,
          Sig.SIGTERM)] ∧
      ((stop env).1 = true ↔ env.sendOk = true)) := by
  constructor
  · intro hrun; simp [stop, hch, hrun]
  · intro hrun
    constructor
    · cases hsend : env.sendOk <;> simp [stop, hch, hrun, hsend]
    · cases hsend : env.sendOk <;> simp [stop, hch, hrun, hsend]

theorem stop_signal_behavior_witness :
    stop ⟨true, ⟨false, none, fun _ => false⟩, true⟩ = (true, []) :=
  (stop_signal_behavior ⟨true, ⟨false, none, fun _ => false⟩, true⟩
    rfl).1 rfl
